import Mathlib

/-!
Verification of the heuristic vulnerability-detection engine:
a shallow embedding of the scanners, scorers and the external-analyzer
adapter, with theorems checking the documented behaviour.

Python strings are embedded as `List Char`; floats are embedded as `ℚ`
(all constants in the program are short decimal literals, and the only
arithmetic is addition, multiplication, division by 10 and `min`, which
are exact); regular expressions are embedded by a small executable
matcher that reproduces the backtracking semantics of the `re` module
on the fragment the program uses (in every pattern of the program, the
quantifiers `*`, `+` and counted repetition are applied to a single
character class only, which the embedding exploits).
-/

/-- ASCII whitespace, the characters matched by the regex class `\s`
and stripped by `str.strip` (the program only feeds ASCII-relevant
text through these). -/
def isSpaceChar (c : Char) : Bool :=
  c = ' ' || c = '\t' || c = '\n' || c = '\r' || c = '\x0b' || c = '\x0c'

/-- ASCII word characters, the regex class `\w`. -/
def isWordChar (c : Char) : Bool :=
  c.isAlphanum || c = '_'

/-- Regular expressions of the fragment used by the program: the empty
string, a character class, sequencing, alternation, and Kleene star of
a character class (every quantified subpattern in the program is a
single character class, so this star is fully general for it). -/
inductive Rx where
  | eps : Rx
  | cls (p : Char → Bool) : Rx
  | seq (a b : Rx) : Rx
  | alt (a b : Rx) : Rx
  | star (p : Char → Bool) : Rx

/-- Greedy matching of `p*` followed by continuation `k`: consume as
many `p`-characters as possible and backtrack one at a time, which is
the preference order of the `re` module. Returns the suffix left after
the first overall success. -/
def starMatch (p : Char → Bool) (k : List Char → Option (List Char)) :
    List Char → Option (List Char)
  | [] => k []
  | c :: rest =>
    if p c then (starMatch p k rest).orElse (fun _ => k (c :: rest))
    else k (c :: rest)

/-- Backtracking matcher in continuation-passing style. `matchRx r s k`
tries to match `r` at the front of `s` and passes the remaining suffix
to `k`, exploring alternatives in the preference order of the `re`
module (left alternative first, greedy quantifiers). The result is the
final remaining suffix of the first overall success. -/
def matchRx : Rx → List Char → (List Char → Option (List Char)) → Option (List Char)
  | .eps, s, k => k s
  | .cls p, s, k =>
    match s with
    | [] => none
    | c :: rest => if p c then k rest else none
  | .seq a b, s, k => matchRx a s (fun s2 => matchRx b s2 k)
  | .alt a b, s, k => (matchRx a s k).orElse (fun _ => matchRx b s k)
  | .star p, s, k => starMatch p k s

/-- `re.search` on one line: is there a match starting at some
position? Scans positions left to right like the `re` module. -/
def searchRx (r : Rx) : List Char → Bool
  | [] => (matchRx r [] some).isSome
  | c :: rest => (matchRx r (c :: rest) some).isSome || searchRx r rest

/-- Non-overlapping left-to-right matching, one step per unit of fuel:
the list of (start position, matched text) pairs produced by
`re.finditer`. A zero-width match is emitted and the scan advances by
one character, as the `re` module does. -/
def scanFrom (r : Rx) : Nat → List Char → Nat → List (Nat × List Char)
  | 0, _, _ => []
  | fuel + 1, s, pos =>
    match matchRx r s some with
    | some rest =>
      let len := s.length - rest.length
      if len = 0 then
        match s with
        | [] => [(pos, [])]
        | _ :: t => (pos, []) :: scanFrom r fuel t (pos + 1)
      else
        (pos, s.take len) :: scanFrom r fuel (s.drop len) (pos + len)
    | none =>
      match s with
      | [] => []
      | _ :: t => scanFrom r fuel t (pos + 1)

/-- `re.finditer` over a whole text. -/
def findIter (r : Rx) (s : List Char) : List (Nat × List Char) :=
  scanFrom r (s.length + 1) s 0

/-- A single case-sensitive literal character. -/
def chr (c : Char) : Rx := .cls (fun x => x = c)

/-- A single case-insensitive literal character (`re.IGNORECASE`). -/
def ichr (c : Char) : Rx := .cls (fun x => x.toLower = c.toLower)

/-- Sequencing of a list of expressions. -/
def rseq (l : List Rx) : Rx := l.foldr .seq .eps

/-- A case-sensitive literal string. -/
def lit (s : String) : Rx := rseq (s.toList.map chr)

/-- A case-insensitive literal string. -/
def ilit (s : String) : Rx := rseq (s.toList.map ichr)

/-- Alternation over a list (empty list never matches). -/
def altOf (l : List Rx) : Rx := l.foldr .alt (.cls (fun _ => false))

/-- `p+` for a character class `p`. -/
def plusC (p : Char → Bool) : Rx := .seq (.cls p) (.star p)

/-- Counted repetition: at least `n` characters of class `p`. -/
def repAtLeast (n : Nat) (p : Char → Bool) : Rx :=
  .seq (rseq (List.replicate n (.cls p))) (.star p)

/-- `r?`. -/
def optR (r : Rx) : Rx := .alt r .eps

/-- `.` outside DOTALL mode: any character except a newline. -/
def anyCh : Rx := .cls (fun c => c ≠ '\n')

/-- `\s*`. -/
def wsStar : Rx := .star isSpaceChar

/-- `\s+`. -/
def wsPlus : Rx := plusC isSpaceChar

/-- The class `["\']`: one quote character. -/
def quoteC : Rx := .cls (fun c => c = '"' || c = '\'')

/-- The predicate of `[^"\']`. -/
def notQuote (c : Char) : Bool := !(c = '"' || c = '\'')

/-- Python `str.startswith` on character lists. -/
def startsWithCh : List Char → List Char → Bool
  | [], _ => true
  | _ :: _, [] => false
  | a :: as, b :: bs => a = b && startsWithCh as bs

/-- Substring test: the Python `in` operator on strings. -/
def containsStr (needle : List Char) : List Char → Bool
  | [] => startsWithCh needle []
  | c :: rest => startsWithCh needle (c :: rest) || containsStr needle rest

/-- Python `str.lower` (ASCII). -/
def pyLower (s : List Char) : List Char := s.map Char.toLower

/-- Python `str.upper` (ASCII). -/
def pyUpper (s : String) : String := String.mk (s.toList.map Char.toUpper)

/-- Python `str.lstrip()`. -/
def pyLstrip (s : List Char) : List Char := s.dropWhile isSpaceChar

/-- Python `str.strip()`. -/
def pyStrip (s : List Char) : List Char :=
  ((pyLstrip s).reverse.dropWhile isSpaceChar).reverse

/-- Python `str.split` on a newline: `code.split(chr 10)`. -/
def splitNL : List Char → List (List Char)
  | [] => [[]]
  | c :: rest =>
    if c = '\n' then [] :: splitNL rest
    else
      match splitNL rest with
      | [] => [[c]]
      | l :: ls => (c :: l) :: ls

/-- Number of newline characters in a text. -/
def countNL (s : List Char) : Nat := s.count '\n'

example : searchRx (lit "ab") "xxab".toList = true := by decide
example : searchRx (lit "ab") "xxa".toList = false := by decide
example : findIter (.seq (chr 'a') (.star (fun c => c = 'b'))) "abbxab".toList
    = [(0, ['a', 'b', 'b']), (4, ['a', 'b'])] := by decide
example : splitNL "a\nb".toList = [['a'], ['b']] := by decide
example : pyStrip "  #x  ".toList = ['#', 'x'] := by decide

/-!
The AI predictor (`ai_enhancement.py`, class `AIBugPredictor`).
All its searches run under `re.IGNORECASE | re.MULTILINE`, so literal
characters are embedded case-insensitively; no pattern uses `^` or `$`,
so the MULTILINE flag is inert.
-/

/-- `self.vulnerability_patterns`: ordered category-to-pattern table,
in the dictionary insertion order of the source. -/
def vulnerability_patterns : List (String × List Rx) :=
  [ ("sql_injection",
      [ rseq [ilit "execute", wsStar, chr '(', wsStar, quoteC,
              .star (fun c => c ≠ '\n'), chr '%',
              .star (fun c => c ≠ '\n'), quoteC],
        rseq [ilit "query", wsStar, chr '(', wsStar, quoteC,
              .star (fun c => c ≠ '\n'), chr '+',
              .star (fun c => c ≠ '\n'), quoteC],
        rseq [ilit "cursor", chr '.', ilit "execute", wsStar, chr '(', wsStar,
              quoteC, .star (fun c => c ≠ '\n'), chr '%',
              .star (fun c => c ≠ '\n'), quoteC] ]),
    ("xss",
      [ rseq [ilit "innerHTML", wsStar, chr '=', wsStar,
              .star (fun c => c ≠ '\n'), chr '+'],
        rseq [ilit "document", chr '.', ilit "write", wsStar, chr '(', wsStar,
              .star (fun c => c ≠ '\n'), chr '+'],
        rseq [ilit "eval", wsStar, chr '(', wsStar,
              .star (fun c => c ≠ '\n'), ilit "input"] ]),
    ("hardcoded_secrets",
      [ rseq [ilit "password", wsStar, chr '=', wsStar, quoteC,
              repAtLeast 8 notQuote, quoteC],
        rseq [ilit "api_key", wsStar, chr '=', wsStar, quoteC,
              repAtLeast 20 notQuote, quoteC],
        rseq [ilit "secret", wsStar, chr '=', wsStar, quoteC,
              repAtLeast 16 notQuote, quoteC] ]),
    ("buffer_overflow",
      [ rseq [ilit "strcpy", wsStar, chr '('],
        rseq [ilit "strcat", wsStar, chr '('],
        rseq [ilit "sprintf", wsStar, chr '('] ]),
    ("race_condition",
      [ rseq [ilit "threading", chr '.'],
        rseq [ilit "multiprocessing", chr '.'],
        rseq [ilit "async", wsPlus, ilit "def"] ]) ]

/-- `self.severity_weights` with the `.get(vuln_type, 0.5)` default. -/
def severity_weights (vuln_type : String) : ℚ :=
  if vuln_type = "sql_injection" then 0.9
  else if vuln_type = "xss" then 0.8
  else if vuln_type = "hardcoded_secrets" then 0.85
  else if vuln_type = "buffer_overflow" then 0.95
  else if vuln_type = "race_condition" then 0.7
  else 0.5

/-- `AIBugPredictor.calculate_severity`: base weight, two contextual
bumps applied in sequence, then capped at 1.0. -/
def calculate_severity (vuln_type : String) (m : List Char) : ℚ :=
  let base := severity_weights vuln_type
  let base :=
    if containsStr "user".toList (pyLower m) || containsStr "input".toList (pyLower m)
    then base + 0.1 else base
  let base :=
    if containsStr "admin".toList (pyLower m) || containsStr "root".toList (pyLower m)
    then base + 0.15 else base
  min base 1

/-- `AIBugPredictor.calculate_confidence`: a static per-category
constant; the matched-text parameter is accepted and ignored, exactly
as in the source. -/
def calculate_confidence (vuln_type : String) (_m : List Char) : ℚ :=
  if vuln_type = "sql_injection" then 0.8
  else if vuln_type = "xss" then 0.75
  else if vuln_type = "hardcoded_secrets" then 0.9
  else if vuln_type = "buffer_overflow" then 0.85
  else if vuln_type = "race_condition" then 0.6
  else 0.5

/-- `AIBugPredictor.get_fix_suggestion`. -/
def get_fix_suggestion (vuln_type : String) : String :=
  if vuln_type = "sql_injection" then
    "Use parameterized queries or prepared statements instead of string concatenation"
  else if vuln_type = "xss" then
    "Sanitize user input and use safe DOM manipulation methods"
  else if vuln_type = "hardcoded_secrets" then
    "Move secrets to environment variables or secure configuration files"
  else if vuln_type = "buffer_overflow" then
    "Use safer string functions like strncpy, strncat, or snprintf"
  else if vuln_type = "race_condition" then
    "Use proper synchronization mechanisms like locks or atomic operations"
  else "Review code for potential security issues"

/-- One prediction dictionary produced by
`AIBugPredictor.predict_vulnerabilities`. -/
structure Prediction where
  type : String
  line : Nat
  severity : ℚ
  confidence : ℚ
  suggestion : String
  matchText : List Char
deriving DecidableEq

/-- The prediction built for one regex match: the line number is one
plus the number of newlines before the match start, exactly
`code[:match.start()].count(chr 10) + 1`. -/
def mkPrediction (code : List Char) (vuln_type : String) (m : Nat × List Char) :
    Prediction :=
  { type := vuln_type
    line := countNL (code.take m.1) + 1
    severity := calculate_severity vuln_type m.2
    confidence := calculate_confidence vuln_type m.2
    suggestion := get_fix_suggestion vuln_type
    matchText := m.2 }

/-- `AIBugPredictor.predict_vulnerabilities`: for every category (in
table order), for every pattern (in list order), every match of
`re.finditer` yields one prediction, appended in that nesting order. -/
def predict_vulnerabilities (code : List Char) : List Prediction :=
  (vulnerability_patterns.map (fun tp =>
    (tp.2.map (fun pat =>
      (findIter pat code).map (mkPrediction code tp.1))).flatten)).flatten

example :
    predict_vulnerabilities "strcpy(x)".toList =
      [mkPrediction "strcpy(x)".toList "buffer_overflow" (0, "strcpy(".toList)] := by
  rfl

example :
    (predict_vulnerabilities "strcpy(x)".toList).map Prediction.type =
      ["buffer_overflow"] := by decide

/-!
The complexity analyzer (`AIBugPredictor.analyze_code_complexity` and
its two helpers).
-/

/-- Count of non-overlapping matches of a word-bounded keyword, the
value of `len(re.findall(r backslash-b kw backslash-b, code))`: the
keyword must occur with a non-word character (or a text boundary) on
both sides; after a hit the scan resumes past the keyword, otherwise
it advances one character. One unit of fuel per step. -/
def countKeyword (kw : List Char) : Nat → Option Char → List Char → Nat
  | 0, _, _ => 0
  | fuel + 1, prev, s =>
    if !kw.isEmpty && startsWithCh kw s
        && (match prev with
            | none => true
            | some c => !isWordChar c)
        && (match s.drop kw.length with
            | [] => true
            | c :: _ => !isWordChar c) then
      1 + countKeyword kw fuel kw.getLast? (s.drop kw.length)
    else
      match s with
      | [] => 0
      | c :: rest => countKeyword kw fuel (some c) rest

/-- `len(re.findall(r backslash-b kw backslash-b, code))`. -/
def countWordMatches (kw : String) (code : List Char) : Nat :=
  countKeyword kw.toList (code.length + 1) none code

/-- The decision keywords of
`AIBugPredictor.calculate_cyclomatic_complexity`. -/
def decision_keywords : List String :=
  ["if", "elif", "while", "for", "except", "and", "or"]

/-- `AIBugPredictor.calculate_cyclomatic_complexity`: one plus the
number of word-bounded occurrences of each decision keyword. -/
def calculate_cyclomatic_complexity (code : List Char) : Nat :=
  1 + (decision_keywords.map (fun kw => countWordMatches kw code)).sum

/-- `AIBugPredictor.calculate_max_nesting_depth`: the maximum over all
non-blank, non-comment lines of the leading-whitespace width divided
by four. -/
def calculate_max_nesting_depth (code : List Char) : Nat :=
  (splitNL code).foldl
    (fun md line =>
      let stripped := pyLstrip line
      if !stripped.isEmpty && !startsWithCh ['#'] stripped then
        max md ((line.length - stripped.length) / 4)
      else md)
    0

/-- A line counted by `code_lines`: non-blank after stripping and not
starting with the comment marker. -/
def isCodeLine (line : List Char) : Bool :=
  !(pyStrip line).isEmpty && !startsWithCh ['#'] (pyStrip line)

/-- A line counted by `comment_lines`: starts with the comment marker
after stripping. -/
def isCommentLine (line : List Char) : Bool :=
  startsWithCh ['#'] (pyStrip line)

/-- The metrics dictionary of `AIBugPredictor.analyze_code_complexity`. -/
structure Metrics where
  total_lines : Nat
  code_lines : Nat
  comment_lines : Nat
  cyclomatic_complexity : Nat
  nesting_depth : Nat
  function_count : Nat
  class_count : Nat
deriving DecidableEq

/-- The pattern of `re.findall(r"def" backslash-s+ backslash-w+, code)`
(case-sensitive: no flag is passed here). -/
def defDeclRx : Rx := rseq [lit "def", wsPlus, plusC isWordChar]

/-- The pattern of `re.findall(r"class" backslash-s+ backslash-w+, code)`. -/
def classDeclRx : Rx := rseq [lit "class", wsPlus, plusC isWordChar]

/-- `AIBugPredictor.analyze_code_complexity`. -/
def analyze_code_complexity (code : List Char) : Metrics :=
  let lines := splitNL code
  { total_lines := lines.length
    code_lines := (lines.filter isCodeLine).length
    comment_lines := (lines.filter isCommentLine).length
    cyclomatic_complexity := calculate_cyclomatic_complexity code
    nesting_depth := calculate_max_nesting_depth code
    function_count := (findIter defDeclRx code).length
    class_count := (findIter classDeclRx code).length }

example : analyze_code_complexity "# c\nif x and y:\n    def f(): pass".toList
    = { total_lines := 3, code_lines := 2, comment_lines := 1,
        cyclomatic_complexity := 3, nesting_depth := 1,
        function_count := 1, class_count := 0 } := by decide

/-!
The risk scorer (`AIBugPredictor.generate_risk_score`).
-/

/-- One raw result dictionary of the external tool, with the fields
the program reads: `check_id`, `start.line`, and the `extra` entries
`message`, `severity` and `lines`; each is absent when the tool did
not report it. -/
structure RawFinding where
  check_id : Option String
  start_line : Option Nat
  message : Option String
  severity : Option String
  lines : Option String
deriving DecidableEq

/-- `AIBugPredictor.generate_risk_score`: weighted counts of the raw
external findings by reported severity, plus the sum of severity times
confidence over the predictions, divided by ten and capped at 1.0. -/
def generate_risk_score (semgrep_results : List RawFinding)
    (ai_predictions : List Prediction) : ℚ :=
  let semgrep_score : ℚ :=
    ((semgrep_results.filter (fun r => r.severity = some "ERROR")).length : ℚ) * 0.3
      + ((semgrep_results.filter (fun r => r.severity = some "WARNING")).length : ℚ) * 0.2
      + ((semgrep_results.filter (fun r => r.severity = some "INFO")).length : ℚ) * 0.1
  let ai_score : ℚ := (ai_predictions.map (fun p => p.severity * p.confidence)).sum
  min ((semgrep_score + ai_score) / 10) 1

/-!
The built-in scanner of `main.py`
(`ModernBugPredictionGUI.detect_vulnerabilities`,
`ModernBugPredictionGUI.get_severity`) and the normalization of
external-tool findings
(`ModernBugPredictionGUI.run_semgrep_analysis`). The scanner is
embedded over the file content (the program reads the file with
replacement of undecodable bytes and then only uses the text); the
constant file-path field of each result dictionary is omitted, it is
the input path unchanged. -/

/-- `critical_types` of `ModernBugPredictionGUI.get_severity`. -/
def critical_types : List String :=
  ["SQL Injection", "Command Injection", "Unsafe Deserialization",
   "Hardcoded Credentials"]

/-- `high_types` of `ModernBugPredictionGUI.get_severity`. -/
def high_types : List String := ["Cross-Site Scripting (XSS)", "Path Traversal"]

/-- `medium_types` of `ModernBugPredictionGUI.get_severity`. -/
def medium_types : List String := ["Weak Cryptography", "Information Disclosure"]

/-- `ModernBugPredictionGUI.get_severity`: the static category-to-
bucket table, defaulting to LOW. -/
def get_severity (vuln_type : String) : String :=
  if vuln_type ∈ critical_types then "CRITICAL"
  else if vuln_type ∈ high_types then "HIGH"
  else if vuln_type ∈ medium_types then "MEDIUM"
  else "LOW"

/-- The pattern table of `ModernBugPredictionGUI.detect_vulnerabilities`,
in source order; each entry is (category, list of (pattern,
description)). Patterns carrying the inline ignore-case flag use
case-insensitive literals, the others are case-sensitive. -/
def main_patterns : List (String × List (Rx × String)) :=
  [ ("SQL Injection",
      [ (rseq [altOf [ilit "SELECT", ilit "INSERT", ilit "UPDATE", ilit "DELETE"],
               .star (fun c => c ≠ '\n'), chr '+', .star (fun c => c ≠ '\n')],
         "String concatenation in SQL query"),
        (rseq [chr '1', wsStar, ilit "OR", wsStar, chr '1', wsStar, chr '=',
               wsStar, chr '1'],
         "Classic SQL injection pattern"),
        (rseq [ilit "UNION", wsPlus, ilit "SELECT"], "UNION-based SQL injection"),
        (rseq [chr ';', wsStar, ilit "DROP", wsPlus, ilit "TABLE"],
         "SQL injection with DROP statement") ]),
    ("Cross-Site Scripting (XSS)",
      [ (rseq [lit "innerHTML", wsStar, chr '=', wsStar,
               .star (fun c => c ≠ ';'), chr '+'],
         "Unsafe innerHTML assignment"),
        (rseq [lit "document.write", wsStar, chr '(',
               .star (fun c => c ≠ ')'), chr '+'],
         "Unsafe document.write usage"),
        (rseq [lit "<script", .star (fun c => c ≠ '>'), chr '>',
               .star (fun c => c ≠ '<'), lit "</script>"],
         "Inline script tag") ]),
    ("Command Injection",
      [ (rseq [lit "os.system", wsStar, chr '(', .star (fun c => c ≠ ')'),
               chr '+'],
         "Command injection via os.system"),
        (rseq [lit "subprocess.", .star (fun c => c ≠ '('), chr '(',
               .star (fun c => c ≠ ')'), lit "shell", wsStar, chr '=', wsStar,
               lit "True"],
         "Shell injection risk"),
        (rseq [lit "eval", wsStar, chr '(', .star (fun c => c ≠ ')'),
               lit "input"],
         "Code injection via eval") ]),
    ("Path Traversal",
      [ (lit "../", "Directory traversal pattern"),
        (rseq [lit "open", wsStar, chr '(', .star (fun c => c ≠ ')'), chr '+',
               .star (fun c => c ≠ ')'), quoteC, .star notQuote, quoteC],
         "Unsafe file path construction") ]),
    ("Hardcoded Credentials",
      [ (rseq [altOf [ilit "password", ilit "pwd", ilit "pass"], wsStar,
               chr '=', wsStar, quoteC, repAtLeast 3 notQuote, quoteC],
         "Hardcoded password"),
        (rseq [altOf [ilit "api_key", ilit "apikey", ilit "secret"], wsStar,
               chr '=', wsStar, quoteC, repAtLeast 10 notQuote, quoteC],
         "Hardcoded API key") ]),
    ("Weak Cryptography",
      [ (rseq [lit "hashlib.md5", wsStar, chr '('], "Weak MD5 hash usage"),
        (rseq [lit "hashlib.sha1", wsStar, chr '('], "Weak SHA1 hash usage"),
        (altOf [ilit "DES", ilit "RC4"], "Weak encryption algorithm") ]),
    ("Unsafe Deserialization",
      [ (rseq [lit "pickle.load", optR (chr 's'), wsStar, chr '('],
         "Unsafe pickle deserialization"),
        (rseq [lit "yaml.load", wsStar, chr '(', .star (fun c => c ≠ ')'),
               lit "Loader"],
         "Unsafe YAML loading") ]),
    ("Information Disclosure",
      [ (rseq [ilit "debug", wsStar, chr '=', wsStar, ilit "True"],
         "Debug mode enabled"),
        (rseq [lit "print", wsStar, chr '(', .star (fun c => c ≠ ')'),
               lit "password"],
         "Password in debug output"),
        (rseq [lit "console.log", wsStar, chr '(', .star (fun c => c ≠ ')'),
               lit "token"],
         "Token in console output") ]) ]

/-- One result dictionary of the built-in scanner. -/
structure Vulnerability where
  type : String
  description : String
  line : Nat
  code : List Char
  severity : String
deriving DecidableEq

/-- The findings the built-in scanner appends for one (pattern,
description) pair of one category: the 1-based lines of the content
that the pattern matches somewhere, in line order. -/
def pattern_findings (vuln_type : String) (pd : Rx × String)
    (lines : List (List Char)) : List Vulnerability :=
  ((lines.enumFrom 1).filter (fun le => searchRx pd.1 le.2)).map
    (fun le =>
      { type := vuln_type
        description := pd.2
        line := le.1
        code := pyStrip le.2
        severity := get_severity vuln_type })

/-- `ModernBugPredictionGUI.detect_vulnerabilities` on the file
content: for every category (in table order), for every pattern, one
finding per line the pattern matches, appended in that nesting
order. -/
def detect_vulnerabilities (content : List Char) : List Vulnerability :=
  let lines := splitNL content
  (main_patterns.map (fun vp =>
    (vp.2.map (fun pd => pattern_findings vp.1 pd lines)).flatten)).flatten

example :
    detect_vulnerabilities "x = 1\npassword = \"hunter2\"".toList =
      [{ type := "Hardcoded Credentials", description := "Hardcoded password",
         line := 2, code := "password = \"hunter2\"".toList,
         severity := "CRITICAL" }] := by decide

/-- The five severity buckets of the result schema. -/
def fiveBuckets : List String := ["CRITICAL", "HIGH", "MEDIUM", "LOW", "INFO"]

/-- One normalized dictionary of
`ModernBugPredictionGUI.run_semgrep_analysis`: the fields are read
from the raw finding with the defaults of the source, and the severity
string is upper-cased verbatim. -/
structure SemgrepVuln where
  type : String
  description : String
  line : Nat
  code : String
  severity : String
deriving DecidableEq

/-- The per-finding normalization inside
`ModernBugPredictionGUI.run_semgrep_analysis`. -/
def normalize_semgrep_finding (f : RawFinding) : SemgrepVuln :=
  { type := f.check_id.getD "Unknown"
    description := f.message.getD "Semgrep finding"
    line := f.start_line.getD 0
    code := f.lines.getD ""
    severity := pyUpper (f.severity.getD "INFO") }

/-- The success branch of `ModernBugPredictionGUI.run_semgrep_analysis`:
every raw result is normalized, in order. -/
def run_semgrep_analysis (findings : List RawFinding) : List SemgrepVuln :=
  findings.map normalize_semgrep_finding

/-!
The external analyzer adapter (`enhanced_semgrep_rules.py`,
`EnhancedSemgrepAnalyzer.analyze_with_custom_rules` and
`EnhancedSemgrepAnalyzer.create_custom_rules_file`). The effectful
calls are embedded by an explicit outcome for each one, and the
function body by its exact control flow over those outcomes: what is
raised, returned, and whether the temporary rules file exists at the
end. -/

/-- Outcome of `create_custom_rules_file`: the call to
`tempfile.NamedTemporaryFile` can fail before any file exists, and the
call to `yaml.dump` can fail after the file was created; both are
outside any handler in the source. -/
inductive RulesFileOutcome where
  | ok
  | tempfileFail
  | dumpFail
deriving DecidableEq

/-- Outcome of the `subprocess.run` call and of the JSON parse inside
the `try` block of `analyze_with_custom_rules`. -/
inductive RunOutcome where
  | toolMissing
  | timedOut
  | exitNonzero
  | badJson
  | ok (results : List RawFinding)
deriving DecidableEq

/-- The failure outcomes of the external run. -/
def RunOutcome.isFailure : RunOutcome → Bool
  | .ok _ => false
  | _ => true

/-- Observable behaviour of one call to `analyze_with_custom_rules`:
whether an exception escaped, the returned list (none when an
exception escaped), whether the temporary rules file was materialized,
and whether it was removed by the end of the call. -/
structure AnalyzeTrace where
  raised : Bool
  retval : Option (List RawFinding)
  fileCreated : Bool
  fileRemoved : Bool
deriving DecidableEq

/-- The `try` body of `analyze_with_custom_rules` (lines 101-127 of
the source): a missing tool or a timeout raises out of the body (to be
caught by the generic handler), a non-zero exit returns the empty
list, a zero exit returns the parsed results or the empty list when
the output is not valid JSON (that parse error is handled inside the
body). -/
def analyze_try_body (run : RunOutcome) : Except Unit (List RawFinding) :=
  match run with
  | .toolMissing => .error ()
  | .timedOut => .error ()
  | .exitNonzero => .ok []
  | .badJson => .ok []
  | .ok results => .ok results

/-- `EnhancedSemgrepAnalyzer.analyze_with_custom_rules`:
`create_custom_rules_file` is called before the `try` statement, so
its failures propagate to the caller and skip the `finally` cleanup;
inside the `try`, every exception is caught and turned into the empty
list, and the `finally` clause removes the rules file. -/
def analyze_with_custom_rules (rf : RulesFileOutcome) (run : RunOutcome) :
    AnalyzeTrace :=
  match rf with
  | .tempfileFail => { raised := true, retval := none,
                       fileCreated := false, fileRemoved := false }
  | .dumpFail => { raised := true, retval := none,
                   fileCreated := true, fileRemoved := false }
  | .ok =>
    let ret :=
      match analyze_try_body run with
      | .ok v => v
      | .error _ => []
    { raised := false, retval := some ret,
      fileCreated := true, fileRemoved := true }

/-!
Specification-side definitions for the refinement claims, written from
the words of the specification, to be compared with the definitions
embedded from the source.
-/

/-- The risk-score formula as the specification states it: weighted
counts of external findings plus the heuristic sum, divided by ten and
clamped to the interval from 0 to 1 (both ends). -/
def riskScoreSpec (sg : List RawFinding) (ai : List Prediction) : ℚ :=
  let externalComponent : ℚ :=
    0.3 * ((sg.filter (fun r => r.severity = some "ERROR")).length : ℚ)
      + 0.2 * ((sg.filter (fun r => r.severity = some "WARNING")).length : ℚ)
      + 0.1 * ((sg.filter (fun r => r.severity = some "INFO")).length : ℚ)
  let heuristicComponent : ℚ := (ai.map (fun p => p.severity * p.confidence)).sum
  max 0 (min ((externalComponent + heuristicComponent) / 10) 1)

/-- The per-category base severity constant as the specification
states it. -/
def severityBaseSpec (category : String) : ℚ :=
  if category = "sql_injection" then 0.90
  else if category = "xss" then 0.80
  else if category = "hardcoded_secrets" then 0.85
  else if category = "buffer_overflow" then 0.95
  else if category = "race_condition" then 0.70
  else 0.50

/-- The severity score as the specification states it: base constant
plus 0.10 for user or input in the matched text, plus a further 0.15
for admin or root, clamped to at most 1.0. -/
def severityScoreSpec (category : String) (matchedText : List Char) : ℚ :=
  let userBump : ℚ :=
    if containsStr "user".toList (pyLower matchedText)
        || containsStr "input".toList (pyLower matchedText) then 0.10 else 0
  let adminBump : ℚ :=
    if containsStr "admin".toList (pyLower matchedText)
        || containsStr "root".toList (pyLower matchedText) then 0.15 else 0
  min (severityBaseSpec category + userBump + adminBump) 1

/-- The base-severity table of the source agrees with the table of
the specification at every category. -/
theorem severity_weights_eq_spec (c : String) :
    severity_weights c = severityBaseSpec c := by
  unfold severity_weights severityBaseSpec
  split_ifs <;> norm_num

/-- C2: for every category and matched text, the severity score equals
the static per-category base constant (sql_injection 0.90,
buffer_overflow 0.95, xss 0.80, hardcoded_secrets 0.85,
race_condition 0.70, unknown 0.50), plus 0.10 when the matched text
case-insensitively contains user or input, plus a further 0.15 when it
contains admin or root, clamped to at most 1.0. -/
theorem calculate_severity_matches_spec (category : String)
    (matchedText : List Char) :
    calculate_severity category matchedText =
      severityScoreSpec category matchedText ∧
    calculate_severity category matchedText ≤ 1 := by
  constructor
  · simp only [calculate_severity, severityScoreSpec, severity_weights_eq_spec]
    split_ifs <;> (congr 1; ring)
  · simp only [calculate_severity]
    exact min_le_right _ _

/-- C1: the risk score equals the weighted-count formula of the
specification clamped to the interval from 0 to 1, and in particular
lies in that interval, for every list of raw external findings and
every list of heuristic predictions whose scores are nonnegative (the
data model guarantees scores in the unit interval). -/
theorem generate_risk_score_matches_spec (sg : List RawFinding)
    (ai : List Prediction)
    (h : ∀ p ∈ ai, 0 ≤ p.severity ∧ 0 ≤ p.confidence) :
    generate_risk_score sg ai = riskScoreSpec sg ai ∧
    0 ≤ generate_risk_score sg ai ∧ generate_risk_score sg ai ≤ 1 := by
  have hsum : 0 ≤ (ai.map (fun p => p.severity * p.confidence)).sum := by
    apply List.sum_nonneg
    intro x hx
    obtain ⟨p, hp, rfl⟩ := List.mem_map.mp hx
    exact mul_nonneg (h p hp).1 (h p hp).2
  simp only [generate_risk_score, riskScoreSpec]
  set cE : ℚ := ((sg.filter (fun r => r.severity = some "ERROR")).length : ℚ)
    with hcE
  set cW : ℚ := ((sg.filter (fun r => r.severity = some "WARNING")).length : ℚ)
    with hcW
  set cI : ℚ := ((sg.filter (fun r => r.severity = some "INFO")).length : ℚ)
    with hcI
  set S : ℚ := (ai.map (fun p => p.severity * p.confidence)).sum with hS
  have hE : (0:ℚ) ≤ cE := by rw [hcE]; exact Nat.cast_nonneg _
  have hW : (0:ℚ) ≤ cW := by rw [hcW]; exact Nat.cast_nonneg _
  have hI : (0:ℚ) ≤ cI := by rw [hcI]; exact Nat.cast_nonneg _
  have ht : (0:ℚ) ≤ (cE * 0.3 + cW * 0.2 + cI * 0.1 + S) / 10 := by
    have h1 : (0:ℚ) ≤ cE * 0.3 := by nlinarith
    have h2 : (0:ℚ) ≤ cW * 0.2 := by nlinarith
    have h3 : (0:ℚ) ≤ cI * 0.1 := by nlinarith
    have h4 : (0:ℚ) ≤ cE * 0.3 + cW * 0.2 + cI * 0.1 + S := by linarith
    linarith
  have htt : (cE * 0.3 + cW * 0.2 + cI * 0.1 + S) / 10
      = (0.3 * cE + 0.2 * cW + 0.1 * cI + S) / 10 := by ring
  refine ⟨?_, ?_, ?_⟩
  · rw [htt, max_eq_right (le_min (htt ▸ ht) zero_le_one)]
  · exact le_min ht zero_le_one
  · exact min_le_right _ _

/-- External-finding list used to instantiate the risk-score theorem:
one ERROR and one WARNING finding. -/
def sgWitnessInput : List RawFinding :=
  [⟨none, none, none, some "ERROR", none⟩,
   ⟨none, none, none, some "WARNING", none⟩]

/-- Prediction list used to instantiate the risk-score theorem. -/
def aiWitnessInput : List Prediction :=
  [⟨"hardcoded_secrets", 1, 0.85, 0.9, "s", []⟩]

/-- Concrete instantiation of the risk-score theorem: two external
findings (one ERROR, one WARNING) and one heuristic prediction with
nonnegative scores. -/
theorem generate_risk_score_matches_spec_witness :
    (∀ p ∈ aiWitnessInput, 0 ≤ p.severity ∧ 0 ≤ p.confidence) ∧
    generate_risk_score sgWitnessInput aiWitnessInput =
      riskScoreSpec sgWitnessInput aiWitnessInput := by
  have h : ∀ p ∈ aiWitnessInput, 0 ≤ p.severity ∧ 0 ≤ p.confidence := by
    intro p hp
    rw [aiWitnessInput, List.mem_singleton] at hp
    subst hp
    constructor <;> norm_num
  exact ⟨h, (generate_risk_score_matches_spec _ _ h).1⟩

/-- C3 (counterexample): when the serialization step inside
`create_custom_rules_file` fails after the temporary file was created
(the call happens before the `try` statement, outside every handler),
the analyze operation raises and the materialized rules file is not
removed. -/
theorem analyze_raises_and_leaks_on_dump_failure :
    (analyze_with_custom_rules .dumpFail (.ok [])).raised = true ∧
    (analyze_with_custom_rules .dumpFail (.ok [])).fileCreated = true ∧
    (analyze_with_custom_rules .dumpFail (.ok [])).fileRemoved = false :=
  ⟨rfl, rfl, rfl⟩

/-- C3 (amended): once the rules file has been materialized
successfully, the analyze operation never raises, removes the rules
file on every exit path of the analysis, and turns every failure mode
of the external run (tool missing, timeout, non-zero exit,
unparseable output) into the empty finding list. -/
theorem analyze_never_raises_after_rules_file (run : RunOutcome) :
    (analyze_with_custom_rules .ok run).raised = false ∧
    (analyze_with_custom_rules .ok run).fileRemoved = true ∧
    (run.isFailure = true →
      (analyze_with_custom_rules .ok run).retval = some []) := by
  cases run <;>
    simp [analyze_with_custom_rules, analyze_try_body, RunOutcome.isFailure]

/-- Concrete instantiation of the adapter theorem at the timeout
outcome. -/
theorem analyze_never_raises_after_rules_file_witness :
    (analyze_with_custom_rules .ok .timedOut).raised = false ∧
    (analyze_with_custom_rules .ok .timedOut).fileRemoved = true ∧
    (analyze_with_custom_rules .ok .timedOut).retval = some [] :=
  ⟨(analyze_never_raises_after_rules_file .timedOut).1,
   (analyze_never_raises_after_rules_file .timedOut).2.1,
   (analyze_never_raises_after_rules_file .timedOut).2.2 rfl⟩

/-- Every entry of an enumeration starting at `n` has first component
at least `n`. -/
theorem le_fst_of_mem_enumFrom {α : Type} {p : Nat × α} :
    ∀ {n : Nat} {l : List α}, p ∈ l.enumFrom n → n ≤ p.1 := by
  intro n l
  induction l generalizing n with
  | nil => intro h; cases h
  | cons x xs ih =>
    intro h
    rcases List.mem_cons.mp h with h1 | h2
    · subst h1; exact Nat.le_refl _
    · exact Nat.le_of_succ_le (ih h2)

/-- The first components of an enumeration are strictly increasing. -/
theorem pairwise_fst_lt_enumFrom {α : Type} (n : Nat) (l : List α) :
    (l.enumFrom n).Pairwise (fun a b => a.1 < b.1) := by
  induction l generalizing n with
  | nil => exact List.Pairwise.nil
  | cons x xs ih =>
    refine List.Pairwise.cons ?_ (ih (n + 1))
    intro b hb
    exact Nat.lt_of_succ_le (le_fst_of_mem_enumFrom hb)

/-- C4 (counterexample): on a two-line input whose first line matches
only the third SQL-injection pattern and whose second line matches
only the first one, the scanner reports line 2 before line 1, so the
finding sequence is not in ascending line order. -/
theorem detect_vulnerabilities_not_line_sorted :
    ((detect_vulnerabilities "UNION SELECT\nSELECT a + b".toList).map
        Vulnerability.line = [2, 1]) ∧
    ¬ List.Sorted (· ≤ ·)
        ((detect_vulnerabilities "UNION SELECT\nSELECT a + b".toList).map
          Vulnerability.line) := by
  constructor
  · decide
  · decide

/-- C4 (amended): scanning the same input twice yields identical
finding sequences (the scanner is a pure function of the content), and
the findings contributed by each single (category, pattern) pair are
in strictly ascending line order; the full sequence is grouped by
category and pattern, not globally line-sorted. -/
theorem detect_vulnerabilities_deterministic_and_per_pattern_sorted
    (content : List Char) :
    detect_vulnerabilities content = detect_vulnerabilities content ∧
    ∀ (vt : String) (pd : Rx × String),
      List.Sorted (· < ·)
        ((pattern_findings vt pd (splitNL content)).map Vulnerability.line) := by
  refine ⟨rfl, ?_⟩
  intro vt pd
  unfold pattern_findings
  rw [List.map_map]
  have hp : (((splitNL content).enumFrom 1).filter
      (fun le => searchRx pd.1 le.2)).Pairwise (fun a b => a.1 < b.1) :=
    (pairwise_fst_lt_enumFrom 1 (splitNL content)).sublist
      (List.filter_sublist _)
  exact List.pairwise_map.mpr hp

/-- C5 (counterexample): the snake-case category tags of the
specification are not keys of the bucket table, whose keys are the
display names of the built-in scanner; a finding tagged sql_injection
falls through to the LOW default. -/
theorem get_severity_snake_case_not_critical :
    get_severity "sql_injection" = "LOW" ∧
    get_severity "sql_injection" ≠ "CRITICAL" := by
  constructor
  · decide
  · decide

/-- C5 (amended): every finding of the built-in scanner carries the
bucket of its category under the static table; the table maps the four
display-name categories SQL Injection, Command Injection, Unsafe
Deserialization and Hardcoded Credentials to CRITICAL, Cross-Site
Scripting (XSS) and Path Traversal to HIGH, Weak Cryptography and
Information Disclosure to MEDIUM, and every other category string
(including the snake-case tags) to LOW. -/
theorem get_severity_table (content : List Char) :
    (∀ v ∈ detect_vulnerabilities content, v.severity = get_severity v.type) ∧
    get_severity "SQL Injection" = "CRITICAL" ∧
    get_severity "Command Injection" = "CRITICAL" ∧
    get_severity "Unsafe Deserialization" = "CRITICAL" ∧
    get_severity "Hardcoded Credentials" = "CRITICAL" ∧
    get_severity "Cross-Site Scripting (XSS)" = "HIGH" ∧
    get_severity "Path Traversal" = "HIGH" ∧
    get_severity "Weak Cryptography" = "MEDIUM" ∧
    get_severity "Information Disclosure" = "MEDIUM" ∧
    (∀ c : String, c ∉ critical_types → c ∉ high_types → c ∉ medium_types →
      get_severity c = "LOW") := by
  refine ⟨?_, by decide, by decide, by decide, by decide, by decide, by decide,
    by decide, by decide, ?_⟩
  · intro v hv
    rw [detect_vulnerabilities] at hv
    simp only [List.mem_flatten, List.mem_map] at hv
    obtain ⟨gl, ⟨vp, hvp, rfl⟩, hv⟩ := hv
    simp only [List.mem_flatten, List.mem_map] at hv
    obtain ⟨fl, ⟨pd, hpd, rfl⟩, hv⟩ := hv
    simp only [pattern_findings, List.mem_map] at hv
    obtain ⟨le, hle, rfl⟩ := hv
    rfl
  · intro c h1 h2 h3
    rw [get_severity, if_neg h1, if_neg h2, if_neg h3]

/-- Finding used to instantiate the bucket-table theorem. -/
def vulnWitnessValue : Vulnerability :=
  ⟨"Hardcoded Credentials", "Hardcoded password", 2,
   "password = \"hunter2\"".toList, "CRITICAL"⟩

/-- Content used to instantiate the bucket-table theorem. -/
def contentWitnessInput : List Char := "x = 1\npassword = \"hunter2\"".toList

/-- Concrete instantiation of the bucket-table theorem at a scanned
finding and at the unmapped category race_condition. -/
theorem get_severity_table_witness :
    (vulnWitnessValue ∈ detect_vulnerabilities contentWitnessInput ∧
      vulnWitnessValue.severity = get_severity vulnWitnessValue.type) ∧
    ("race_condition" ∉ critical_types ∧ "race_condition" ∉ high_types ∧
      "race_condition" ∉ medium_types ∧
      get_severity "race_condition" = "LOW") := by
  have hm : vulnWitnessValue ∈ detect_vulnerabilities contentWitnessInput := by
    decide
  exact ⟨⟨hm, (get_severity_table contentWitnessInput).1 vulnWitnessValue hm⟩,
    by decide, by decide, by decide,
    (get_severity_table contentWitnessInput).2.2.2.2.2.2.2.2.2 "race_condition"
      (by decide) (by decide) (by decide)⟩

/-- The external-severity normalization as the specification states
it: upper-cased and mapped into the five-bucket enum, every
unrecognized value to INFO. -/
def semgrepSeverityBucketSpec (sev : Option String) : String :=
  let u := pyUpper (sev.getD "INFO")
  if u ∈ fiveBuckets then u else "INFO"

/-- C6 (counterexample): a reported severity of error is upper-cased
to ERROR and stored verbatim; it is outside the five-bucket enum, and
the specified normalization would have mapped it to INFO. -/
theorem semgrep_severity_not_bucketed :
    (normalize_semgrep_finding
        ⟨some "rule", some 3, some "m", some "error", some ""⟩).severity
      = "ERROR" ∧
    "ERROR" ∉ fiveBuckets ∧
    semgrepSeverityBucketSpec (some "error") = "INFO" ∧
    (normalize_semgrep_finding
        ⟨some "rule", some 3, some "m", some "error", some ""⟩).severity
      ≠ semgrepSeverityBucketSpec (some "error") := by
  refine ⟨by decide, by decide, by decide, by decide⟩

/-- C6 (amended): the normalized finding takes the reported start line
with default 0, the rule identifier with default Unknown, and the
reported severity upper-cased verbatim, with INFO only as the default
for an absent severity; the result is not restricted to the
five-bucket enum. -/
theorem normalize_semgrep_finding_fields (f : RawFinding) :
    (normalize_semgrep_finding f).line = f.start_line.getD 0 ∧
    (normalize_semgrep_finding f).type = f.check_id.getD "Unknown" ∧
    (normalize_semgrep_finding f).severity = pyUpper (f.severity.getD "INFO") ∧
    (f.severity = none → (normalize_semgrep_finding f).severity = "INFO") := by
  refine ⟨rfl, rfl, rfl, ?_⟩
  intro h
  simp only [normalize_semgrep_finding, h]
  decide

/-- Concrete instantiation of the normalization theorem at a raw
finding with every field absent. -/
theorem normalize_semgrep_finding_fields_witness :
    (normalize_semgrep_finding ⟨none, none, none, none, none⟩).line = 0 ∧
    (normalize_semgrep_finding ⟨none, none, none, none, none⟩).severity
      = "INFO" :=
  ⟨(normalize_semgrep_finding_fields ⟨none, none, none, none, none⟩).1,
   (normalize_semgrep_finding_fields ⟨none, none, none, none, none⟩).2.2.2 rfl⟩

/-- The example input line of the hardcoded-secret scenario. -/
def pwInput : List Char := "password = \"supersecretpw\"".toList

/-- C7 (counterexample): on the example input the heuristic scanner
produces exactly one prediction, of category hardcoded_secrets, and
the bucket table assigns that category string LOW, not CRITICAL (its
CRITICAL row is keyed by the display name Hardcoded Credentials). -/
theorem hardcoded_secret_prediction_not_critical :
    (predict_vulnerabilities pwInput).map Prediction.type
      = ["hardcoded_secrets"] ∧
    get_severity "hardcoded_secrets" = "LOW" ∧
    get_severity "hardcoded_secrets" ≠ "CRITICAL" := by
  refine ⟨by decide, by decide, by decide⟩

/-- C7 (amended): on the example input the heuristic scanner yields
one prediction with category hardcoded_secrets, severity score 0.85
(and so at least 0.85) and confidence score 0.90, the static constant
independent of the matched text; the built-in scanner separately
yields one Hardcoded Credentials finding with bucket CRITICAL, and no
single finding carries both the snake-case category and the CRITICAL
bucket. -/
theorem hardcoded_secret_example_scores :
    predict_vulnerabilities pwInput
      = [mkPrediction pwInput "hardcoded_secrets" (0, pwInput)] ∧
    (mkPrediction pwInput "hardcoded_secrets" (0, pwInput)).severity = 0.85 ∧
    (0.85 : ℚ) ≥ 0.85 ∧
    (mkPrediction pwInput "hardcoded_secrets" (0, pwInput)).confidence = 0.9 ∧
    (∀ m m2 : List Char, calculate_confidence "hardcoded_secrets" m
      = calculate_confidence "hardcoded_secrets" m2) ∧
    (detect_vulnerabilities pwInput).map (fun v => (v.type, v.severity))
      = [("Hardcoded Credentials", "CRITICAL")] := by
  refine ⟨by rfl, ?_, le_refl _, by rfl, fun m m2 => rfl, by decide⟩
  show calculate_severity "hardcoded_secrets" pwInput = 0.85
  have h1 : (containsStr "user".toList (pyLower pwInput)
      || containsStr "input".toList (pyLower pwInput)) = false := by decide
  have h2 : (containsStr "admin".toList (pyLower pwInput)
      || containsStr "root".toList (pyLower pwInput)) = false := by decide
  have hsw : severity_weights "hardcoded_secrets" = 0.85 := rfl
  simp only [calculate_severity, h1, h2, Bool.false_eq_true, if_false, hsw]
  exact min_eq_left (by norm_num)

/-- C8: the empty input yields no predictions and the degenerate
complexity metrics: one (empty) line, no code or comment lines, base
cyclomatic complexity 1, nesting depth 0, and no function or class
declarations. -/
theorem empty_input_zero_findings_and_degenerate_metrics :
    predict_vulnerabilities "".toList = [] ∧
    analyze_code_complexity "".toList =
      { total_lines := 1, code_lines := 0, comment_lines := 0,
        cyclomatic_complexity := 1, nesting_depth := 0,
        function_count := 0, class_count := 0 } := by
  constructor
  · rfl
  · decide

/-- Two boolean filters that never hold together select at most the
whole list between them. -/
theorem length_filter_disjoint_le {α : Type} (p q : α → Bool)
    (h : ∀ x, p x = true → q x = false) (l : List α) :
    (l.filter p).length + (l.filter q).length ≤ l.length := by
  induction l with
  | nil => simp
  | cons x xs ih =>
    by_cases hpx : p x = true
    · have hqx := h x hpx
      simp only [List.filter_cons, hpx, hqx, if_true, Bool.false_eq_true,
        if_false, List.length_cons]
      omega
    · have hpx2 : p x = false := by revert hpx; cases p x <;> simp
      by_cases hqx : q x = true
      · simp only [List.filter_cons, hpx2, hqx, if_true, Bool.false_eq_true,
          if_false, List.length_cons]
        omega
      · have hqx2 : q x = false := by revert hqx; cases q x <;> simp
        simp only [List.filter_cons, hpx2, hqx2, Bool.false_eq_true, if_false,
          List.length_cons]
        omega

/-- C9: a line counted as a comment is never counted as code, so the
two counts together never exceed the total line count. -/
theorem code_comment_lines_le_total (code : List Char) :
    (analyze_code_complexity code).code_lines
        + (analyze_code_complexity code).comment_lines
      ≤ (analyze_code_complexity code).total_lines := by
  have hdisj : ∀ l : List Char, isCodeLine l = true → isCommentLine l = false := by
    intro l h
    rw [isCodeLine, Bool.and_eq_true] at h
    rw [isCommentLine]
    exact (Bool.not_eq_true' _).mp h.2
  simp only [analyze_code_complexity]
  exact length_filter_disjoint_le _ _ hdisj _

/-- C10: every prediction points at a line between 1 and the total
line count of the input (one plus the number of line breaks). -/
theorem prediction_line_bounds (code : List Char) :
    ∀ p ∈ predict_vulnerabilities code,
      1 ≤ p.line ∧ p.line ≤ countNL code + 1 := by
  intro p hp
  rw [predict_vulnerabilities] at hp
  simp only [List.mem_flatten, List.mem_map] at hp
  obtain ⟨gl, ⟨tp, htp, rfl⟩, hp⟩ := hp
  simp only [List.mem_flatten, List.mem_map] at hp
  obtain ⟨fl, ⟨pat, hpat, rfl⟩, hp⟩ := hp
  simp only [List.mem_map] at hp
  obtain ⟨m, hm, rfl⟩ := hp
  constructor
  · exact Nat.le_add_left 1 _
  · show countNL (code.take m.1) + 1 ≤ countNL code + 1
    apply Nat.succ_le_succ
    rw [countNL, countNL]
    exact (List.take_sublist m.1 code).count_le '\n'

/-- Concrete instantiation of the line-bounds theorem at a one-line
input with one match. -/
theorem prediction_line_bounds_witness :
    mkPrediction "strcpy(x)".toList "buffer_overflow" (0, "strcpy(".toList)
        ∈ predict_vulnerabilities "strcpy(x)".toList ∧
    1 ≤ (mkPrediction "strcpy(x)".toList "buffer_overflow"
        (0, "strcpy(".toList)).line ∧
    (mkPrediction "strcpy(x)".toList "buffer_overflow"
        (0, "strcpy(".toList)).line ≤ countNL "strcpy(x)".toList + 1 := by
  have hm : mkPrediction "strcpy(x)".toList "buffer_overflow"
      (0, "strcpy(".toList) ∈ predict_vulnerabilities "strcpy(x)".toList := by
    rw [(rfl : predict_vulnerabilities "strcpy(x)".toList
      = [mkPrediction "strcpy(x)".toList "buffer_overflow"
          (0, "strcpy(".toList)])]
    exact List.mem_singleton_self _
  exact ⟨hm, (prediction_line_bounds "strcpy(x)".toList _ hm).1,
    (prediction_line_bounds "strcpy(x)".toList _ hm).2⟩
